import Mathlib

/-!
Verification development for the biothings data-build orchestrator
(biothings/databuild/builder.py) and the identifier-lineage graph
(biothings/hub/datatransform/record_chain.py).

The Python code is shallowly embedded: the persisted build history is a
Lean list of records, the mongo read-modify-write cycle of
DataBuilder.register_status is explicit state passing, and Python
exceptions are Except values.
-/

namespace Builder

/-- One entry of the persisted "build" history list (a Build Record).
Fields that the Python code stores as optional dict keys are Options;
status, started_at, target_backend, target_name are always written by
register_status. target_name is Option String because the Python value
bound to the key may itself be None. -/
structure BuildRecord where
  status : String
  startedAt : Nat
  targetBackend : String
  targetName : Option String
  pid : Option Nat := none
  timeInS : Option Nat := none
  step : Option String := none
  sources : Option (List String) := none
  progress : Option String := none
  stats : Option (List (String × Nat)) := none
  srcVersions : Option (List String) := none
  err : Option String := none
  deriving DecidableEq, Repr

/-- The extra["build"] payload passed to register_status: a dict merged
into the build_info dict (and, through it, into the last history
record). Absent keys are none. -/
structure BuildPayload where
  step : Option String := none
  sources : Option (List String) := none
  progress : Option String := none
  stats : Option (List (String × Nat)) := none
  srcVersions : Option (List String) := none
  err : Option String := none
  deriving DecidableEq, Repr

/-- The DataBuilder state that register_status reads: backend names,
process id, start time, the configured maximum history size, and the
(instance attribute) _stats, which __init__ and merge never assign. -/
structure BuilderCtx where
  targetBackend : String
  targetName : Option String
  pid : Nat
  t0 : Nat
  maxBuildStatus : Nat
  selfStats : Option (List (String × Nat)) := none
  srcVersions : List String := []
  deriving DecidableEq, Repr

/-- Errors raised while manipulating the persisted history document:
indexError models the IndexError from _cfg["build"][-1] on an empty
history list. -/
inductive LedgerErr where
  | indexError
  deriving DecidableEq, Repr

/-- build_info dict as register_status constructs it: status,
started_at, logfile, target_backend, target_name always; pid only when
transient; time/time_in_s only when not transient. -/
def mkBuildInfo (ctx : BuilderCtx) (status : String) (transient : Bool)
    (now : Nat) : BuildRecord :=
  { status := status
    startedAt := now
    targetBackend := ctx.targetBackend
    targetName := ctx.targetName
    pid := if transient then some ctx.pid else none
    timeInS := if transient then none else some (now - ctx.t0) }

/-- build_info.update(extra["build"]): keys present in the payload
overwrite the corresponding build_info keys. -/
def applyPayload (r : BuildRecord) (p : BuildPayload) : BuildRecord :=
  { r with
    step := p.step.or r.step
    sources := p.sources.or r.sources
    progress := p.progress.or r.progress
    stats := p.stats.or r.stats
    srcVersions := p.srcVersions.or r.srcVersions
    err := p.err.or r.err }

/-- _cfg["build"][-1].update(build_info): every key present in
build_info overwrites the old record; keys absent from build_info
(none) keep their old values. -/
def mergeRecord (old info : BuildRecord) : BuildRecord :=
  { status := info.status
    startedAt := info.startedAt
    targetBackend := info.targetBackend
    targetName := info.targetName
    pid := info.pid.or old.pid
    timeInS := info.timeInS.or old.timeInS
    step := info.step.or old.step
    sources := info.sources.or old.sources
    progress := info.progress.or old.progress
    stats := info.stats.or old.stats
    srcVersions := info.srcVersions.or old.srcVersions
    err := info.err.or old.err }

/-- DataBuilder.register_status, acting on the persisted history list.
Faithful to the source: when "build" is in extra, the payload is merged
into build_info and the LAST existing record is updated in place
(IndexError when the history is empty); when init is true, build_info
is pushed and then, if the length of the document AS FETCHED BEFORE THE
PUSH exceeds max_build_status, that many oldest records are popped from
the front. -/
def register_status (ctx : BuilderCtx) (hist : List BuildRecord)
    (status : String) (transient init : Bool)
    (extra : Option BuildPayload) (now : Nat) :
    Except LedgerErr (List BuildRecord) :=
  let info := mkBuildInfo ctx status transient now
  let afterExtra : Except LedgerErr (BuildRecord × List BuildRecord) :=
    match extra with
    | none => .ok (info, hist)
    | some p =>
        let info := applyPayload info p
        match hist.getLast? with
        | none => .error .indexError
        | some last => .ok (info, hist.dropLast ++ [mergeRecord last info])
  match afterExtra with
  | .error e => .error e
  | .ok (info, hist1) =>
      if init then
        let fetchedLen := hist.length
        let pushed := hist1 ++ [info]
        if fetchedLen > ctx.maxBuildStatus then
          .ok (pushed.drop (fetchedLen - ctx.maxBuildStatus))
        else
          .ok pushed
      else
        .ok hist1

/-- Python falsiness of an optional string value: absent or empty. -/
def falsyStr : Option String → Bool
  | none => true
  | some s => s.isEmpty

/-- Python falsiness of an optional list value: absent or empty. -/
def falsyList : Option (List String) → Bool
  | none => true
  | some l => l.isEmpty

/-- The distinct ResumeException cases of DataBuilder.merge_resume, in
the order the source checks them. -/
inductive ResumeErr where
  | noBuildBound
  | noSources
  | noStep
  | stepNotInSources
  | noTargetName
  | nothingToResume
  deriving DecidableEq, Repr

/-- The calls merge_resume makes on success:
source_backend.validate_sources(sources) and
merge(sources, target_name), both with the recomputed suffix. -/
structure ResumeCall where
  validatedSources : List String
  mergeSourcesArg : List String
  mergeTargetArg : String
  deriving DecidableEq, Repr

/-- DataBuilder.merge_resume: resumes on the latest history record,
raising a distinct ResumeException for each unmet precondition, then
recomputes the remaining sources as sources[sources.index(step):] and
invokes validate_sources and merge on that suffix. -/
def merge_resume (hist : List BuildRecord) : Except ResumeErr ResumeCall :=
  match hist.getLast? with
  | none => .error .noBuildBound
  | some b =>
      if falsyList b.sources then .error .noSources
      else
        let srcs := b.sources.getD []
        if falsyStr b.step then .error .noStep
        else
          let st := b.step.getD ""
          if ¬ st ∈ srcs then .error .stepNotInSources
          else if falsyStr b.targetName then .error .noTargetName
          else if b.status ≠ "failed" then .error .nothingToResume
          else
            let rem := srcs.drop (srcs.indexOf st)
            .ok { validatedSources := rem
                  mergeSourcesArg := rem
                  mergeTargetArg := b.targetName.getD "" }

/-- DataBuilder.get_root_document_sources:
self._build_config.get(self.doc_root_key, []). With doc_root_key None
the dict lookup misses and yields []. The build configuration is the
dict, modelled as an association list. -/
def get_root_document_sources (buildConfig : List (String × List String))
    (docRootKey : Option String) : List String :=
  match docRootKey with
  | none => []
  | some k =>
      match buildConfig.lookup k with
      | none => []
      | some l => l

/-- The reordering performed at the top of DataBuilder.merge_sources:
root_sources = list(set(source_names) & set(root document sources)),
other_sources = list(set(source_names) - set(root_sources)), and the
loop then iterates root_sources ++ other_sources. Python set order is
unspecified; each partition is modelled as the deduplicated filter of
source_names. -/
def orderedSourceNames (sourceNames rootDocSources : List String) :
    List String :=
  let rootSources := (sourceNames.filter (fun s => s ∈ rootDocSources)).dedup
  let otherSources := (sourceNames.filter (fun s => ¬ s ∈ rootDocSources)).dedup
  rootSources ++ otherSources

/-- The processing order of DataBuilder.merge_sources for a builder
with the given configuration and root key. -/
def merge_sources_order (buildConfig : List (String × List String))
    (docRootKey : Option String) (sourceNames : List String) : List String :=
  orderedSourceNames sourceNames (get_root_document_sources buildConfig docRootKey)

/-- One call to target_backend.update(newdocs, upsert=upsert) made by
merge_source for one batch. -/
structure Write where
  src : String
  docs : List String
  upsert : Bool
  deriving DecidableEq, Repr

/-- The upsert flag computed by DataBuilder.merge_source:
(self.doc_root_key is None) or src_name in get_root_document_sources().
-/
def upsertMode (buildConfig : List (String × List String))
    (docRootKey : Option String) (srcName : String) : Bool :=
  docRootKey.isNone ||
    srcName ∈ get_root_document_sources buildConfig docRootKey

/-- DataBuilder.merge_source on the stream of batches fed by
doc_feeder: each batch goes through the mapper, the per-document
cleaning step, and one target update with the resolved upsert flag;
the affected counts accumulate and the stats pair total_src is
returned together with the write trace. -/
def merge_source (buildConfig : List (String × List String))
    (docRootKey : Option String) (srcName : String)
    (mapper : List String → List String) (clean : String → String)
    (updateCount : List String → Nat)
    (batches : List (List String)) : (String × Nat) × List Write :=
  let upsert := upsertMode buildConfig docRootKey srcName
  let writes := batches.map (fun docs =>
    { src := srcName, docs := (mapper docs).map clean, upsert := upsert })
  let cnt := (writes.map (fun w => updateCount w.docs)).sum
  (("total_" ++ srcName, cnt), writes)

/-- Exceptions observable at the top of DataBuilder.merge: a ledger
manipulation error surfacing from register_status, a runtime error from
the per-source loop, or an operator KeyboardInterrupt. -/
inductive Exc where
  | ledger (e : LedgerErr)
  | runtime (msg : String)
  | interrupt
  deriving DecidableEq, Repr

/-- repr(e) as recorded under the err key of a failed record. -/
def reprExc : Exc → String
  | .ledger _ => "IndexError(list index out of range)"
  | .runtime msg => "Exception(" ++ msg ++ ")"
  | .interrupt => "KeyboardInterrupt()"

/-- Outcome of the consistency validation in the finally block of
DataBuilder.merge. -/
inductive ValidationOutcome where
  | skipped
  | okCount (cnt : Nat)
  | warned (cnt expected : Nat)
  deriving DecidableEq, Repr

/-- The finally block of DataBuilder.merge: if getattr(self, _stats,
None) is truthy, compare target_backend.count() with
self._stats[total_documents]; on mismatch log a warning built from
self._stats[total_genes]. A missing dict key is a KeyError. -/
def finalValidation (selfStats : Option (List (String × Nat)))
    (targetCnt : Nat) : Except String ValidationOutcome :=
  match selfStats with
  | none => .ok .skipped
  | some st =>
      if st.isEmpty then .ok .skipped
      else
        match st.lookup "total_documents" with
        | none => .error "KeyError: total_documents"
        | some expected =>
            if targetCnt = expected then .ok (.okCount targetCnt)
            else
              match st.lookup "total_genes" with
              | none => .error "KeyError: total_genes"
              | some g => .ok (.warned targetCnt g)

/-- What a whole DataBuilder.merge call leaves behind: the persisted
history, the exception that reached the caller (none on success), and
the result of the finally-block validation. -/
structure MergeOutcome where
  hist : List BuildRecord
  exc : Option Exc
  validation : Except String ValidationOutcome
  deriving Repr

/-- DataBuilder.merge, with the per-source loop abstracted as runRes
(ok stats from merge_sources, or the exception it raised). The try
body first registers the transient building record with init=True and
build={step: init, sources}; on success it registers the terminal
success record with the stats payload; the except clause registers a
terminal failed record with err=repr(e) and re-raises; an exception
raised inside the except clause itself propagates instead. The finally
block always runs finalValidation on the instance attribute _stats,
which merge never assigns. -/
def mergeModel (ctx : BuilderCtx) (hist : List BuildRecord)
    (sources : List String) (runRes : Except Exc (List (String × Nat)))
    (targetCnt now : Nat) : MergeOutcome :=
  let validation := finalValidation ctx.selfStats targetCnt
  let failedPayload : Exc → BuildPayload := fun e => { err := some (reprExc e) }
  match register_status ctx hist "building" true true
      (some { step := some "init", sources := some sources }) now with
  | .error le =>
      match register_status ctx hist "failed" false false
          (some (failedPayload (.ledger le))) now with
      | .error le2 => { hist := hist, exc := some (.ledger le2), validation }
      | .ok h2 => { hist := h2, exc := some (.ledger le), validation }
  | .ok h1 =>
      match runRes with
      | .error e =>
          match register_status ctx h1 "failed" false false
              (some (failedPayload e)) now with
          | .error le2 => { hist := h1, exc := some (.ledger le2), validation }
          | .ok h2 => { hist := h2, exc := some e, validation }
      | .ok stats =>
          match register_status ctx h1 "success" false false
              (some { stats := some stats, srcVersions := some ctx.srcVersions }) now with
          | .error le =>
              match register_status ctx h1 "failed" false false
                  (some (failedPayload (.ledger le))) now with
              | .error le2 => { hist := h1, exc := some (.ledger le2), validation }
              | .ok h2 => { hist := h2, exc := some (.ledger le), validation }
          | .ok h2 => { hist := h2, exc := none, validation }

end Builder

namespace DataTransform

/-- Python values held as graph nodes or passed as arguments: an
integer identifier or a list of integer identifiers. Iterating an
integer raises TypeError; iterating a list yields its elements. -/
inductive PyVal where
  | int : Int → PyVal
  | list : List Int → PyVal
  deriving DecidableEq, Repr

/-- Python exceptions relevant to RecChain. -/
inductive PyErr where
  | typeError
  deriving DecidableEq, Repr

/-- The for-loop protocol: for x in v. -/
def pyIter : PyVal → Except PyErr (List PyVal)
  | .int _ => .error .typeError
  | .list l => .ok (l.map PyVal.int)

/-- RecChain state: the underlying nx.DiGraph as node and edge lists.
DiGraph keeps at most one copy of a node or an edge; insertion order
is preserved. -/
structure RecChain where
  nodes : List PyVal
  edges : List (PyVal × PyVal)
  deriving DecidableEq, Repr

/-- nx.DiGraph.add_node: appends the node unless already present. -/
def addNodeL (ns : List PyVal) (n : PyVal) : List PyVal :=
  if n ∈ ns then ns else ns ++ [n]

/-- RecChain.add_root(obj1): graph.add_node(obj1). -/
def add_root (g : RecChain) (n : PyVal) : RecChain :=
  { g with nodes := addNodeL g.nodes n }

/-- RecChain.add(obj1, obj2): graph.add_node(obj2) then
graph.add_edge(obj1, obj2); add_edge inserts missing endpoints and
skips a duplicate edge. -/
def add (g : RecChain) (a b : PyVal) : RecChain :=
  let ns := addNodeL (addNodeL (addNodeL g.nodes b) a) b
  let es := if (a, b) ∈ g.edges then g.edges else g.edges ++ [(a, b)]
  { nodes := ns, edges := es }

/-- graph.out_edges(n): edges leaving n. -/
def outEdges (g : RecChain) (n : PyVal) : List (PyVal × PyVal) :=
  g.edges.filter (fun e => e.1 = n)

/-- graph.in_edges(n): edges entering n. -/
def inEdges (g : RecChain) (n : PyVal) : List (PyVal × PyVal) :=
  g.edges.filter (fun e => e.2 = n)

/-- graph.out_degree(n) for a node of the graph. -/
def outDegree (g : RecChain) (n : PyVal) : Nat :=
  (outEdges g n).length

/-- graph.in_degree(n) for a node of the graph. -/
def inDegree (g : RecChain) (n : PyVal) : Nat :=
  (inEdges g n).length

/-- RecChain.root_nodes: nodes with out-degree exactly 1 and in-degree
0. -/
def root_nodes (g : RecChain) : List PyVal :=
  g.nodes.filter (fun x => outDegree g x == 1 && inDegree g x == 0)

/-- RecChain.leaf_nodes: nodes with out-degree 0 and in-degree exactly
1. -/
def leaf_nodes (g : RecChain) : List PyVal :=
  g.nodes.filter (fun x => outDegree g x == 0 && inDegree g x == 1)

/-- RecChain.find_leaf(n), with explicit recursion fuel: yield n when
its out-degree is 0, otherwise recurse through every outgoing edge.
On an acyclic graph, any fuel of at least the edge count plus one is
enough, since a path never repeats an edge. -/
def findLeafFuel : Nat → RecChain → PyVal → List PyVal
  | 0, _, _ => []
  | fuel + 1, g, n =>
      if outDegree g n = 0 then [n]
      else (outEdges g n).flatMap (fun e => findLeafFuel fuel g e.2)

/-- RecChain.find_leaf(n) on a node of an acyclic graph. -/
def find_leaf (g : RecChain) (n : PyVal) : List PyVal :=
  findLeafFuel (g.edges.length + 1) g n

/-- RecChain.__iter__: for every root node r (in node order), every
leaf yielded by find_leaf(r), as the pair (r, leaf). -/
def iterPairs (g : RecChain) : List (PyVal × PyVal) :=
  (root_nodes g).flatMap (fun r => (find_leaf g r).map (fun l => (r, l)))

/-- RecChain.__iadd__ applied to another RecChain: for (obj1, obj2) in
other: self.add(obj1, obj2) — iterating other yields its (root, leaf)
pairs. -/
def iadd (a b : RecChain) : RecChain :=
  (iterPairs b).foldl (fun g p => add g p.1 p.2) a

/-- The right operand of += as Python sees it: a RecChain instance or
any other object. -/
inductive PyObj where
  | chain (c : RecChain)
  | notChain
  deriving Repr

/-- RecChain.__iadd__ including the isinstance guard: raises TypeError
when other is not a RecChain. -/
def iaddObj (a : RecChain) : PyObj → Except PyErr RecChain
  | .chain b => .ok (iadd a b)
  | .notChain => .error .typeError

/-- RecChain.find_left(ids): for id in ids: yield from find_leaf(id).
The argument itself is iterated, so a scalar identifier raises
TypeError. -/
def find_left (g : RecChain) (ids : PyVal) : Except PyErr (List PyVal) :=
  (pyIter ids).map (fun l => l.flatMap (fun i => find_leaf g i))

/-- RecChain.lookup(obj1, obj2): true when obj2 occurs among
find_left(obj1). -/
def lookup (g : RecChain) (obj1 obj2 : PyVal) : Except PyErr Bool :=
  (find_left g obj1).map (fun ls => ls.contains obj2)

/-- The empty chain, as constructed by RecChain() with no arguments. -/
def emptyChain : RecChain := { nodes := [], edges := [] }

end DataTransform

namespace Builder

/-- A builder context with max_build_status = 1, used to exercise the
history bound. -/
def ctxMax1 : BuilderCtx :=
  { targetBackend := "mongo", targetName := some "t1", pid := 42,
    t0 := 0, maxBuildStatus := 1 }

/-- A builder context with the default max_build_status = 10. -/
def ctxDefault : BuilderCtx :=
  { targetBackend := "mongo", targetName := some "t1", pid := 42,
    t0 := 0, maxBuildStatus := 10 }

/-- A terminal record of a previous successful merge attempt. -/
def prevRec : BuildRecord :=
  { status := "success", startedAt := 0, targetBackend := "mongo",
    targetName := some "tprev", timeInS := some 3,
    step := some "b", sources := some ["a", "b"],
    stats := some [("total_a", 3), ("total_b", 2)] }

/-- Claim C1: after two register(init=True) calls starting from an
empty history with max_build_status = 1, the persisted history holds 2
records, exceeding the configured maximum: the eviction count is
computed from the length of the document fetched before the push, so
the history stabilises at max_build_status + 1 records, contradicting
the claimed bound. -/
theorem register_status_history_exceeds_max :
    ((register_status ctxMax1 [] "building" true true none 1).bind
      (fun h => register_status ctxMax1 h "building" true true none 2)).map
        List.length = .ok 2
    ∧ ctxMax1.maxBuildStatus = 1 := by
  exact ⟨rfl, rfl⟩

end Builder

namespace Builder

/-- Claim C4: the register call that merge issues at run start
(init=True together with a build payload) does modify the previous
attempt's terminal record: with history [prevRec] (status "success"),
after the call the first history record has status "building" and a
new pid, because _cfg["build"][-1].update(build_info) runs before the
push. The claim says that record is left unchanged. -/
theorem register_init_mutates_previous_record :
    (register_status ctxDefault [prevRec] "building" true true
        (some { step := some "init", sources := some ["a", "b"] }) 5).map
      (fun l => (l.length, l.head?.map BuildRecord.status)) =
        .ok (2, some "building")
    ∧ prevRec.status = "success" := by
  exact ⟨rfl, rfl⟩

end Builder

namespace Builder

/-- Claim C5: a successful merge that computed per-source statistics
(run result total_s1 = 5, recorded in the success record) with a
mismatching target count of 7 performs NO comparison: the finally
block tests the instance attribute _stats, which merge never assigns,
so validation is skipped and no warning is possible. Moreover, had the
attribute held the computed statistics, the comparison would raise a
KeyError (the key total_documents is never among the total_<src> keys
merge_sources produces), so the check could not be the claimed
non-fatal warning either. -/
theorem merge_validation_skipped_despite_stats :
    (mergeModel ctxDefault [prevRec] ["s1"] (.ok [("total_s1", 5)]) 7 9).validation
        = .ok .skipped
    ∧ (mergeModel ctxDefault [prevRec] ["s1"] (.ok [("total_s1", 5)]) 7 9).exc = none
    ∧ (mergeModel ctxDefault [prevRec] ["s1"] (.ok [("total_s1", 5)]) 7 9).hist.getLast?.map
        (fun r => (r.status, r.stats)) = some ("success", some [("total_s1", 5)])
    ∧ ctxDefault.selfStats = none
    ∧ finalValidation (some [("total_s1", 5)]) 7 = .error "KeyError: total_documents" := by
  exact ⟨rfl, rfl, rfl, rfl, rfl⟩

/-- Claim C6: on a configuration whose history is empty at merge
start, the initial register_status call raises (IndexError from
_cfg["build"][-1]), the except clause re-enters register_status, which
raises the same way, so NO terminal failed record is registered (the
history stays empty) and the exception surfacing to the caller is the
handler's ledger error, not the merge error. For contrast, with a
non-empty history a KeyboardInterrupt during the run is recorded as a
terminal failed record carrying repr(e) and is re-raised unchanged. -/
theorem merge_failure_not_always_registered :
    (mergeModel ctxDefault [] ["a"] (.error (.runtime "boom")) 0 1).hist = []
    ∧ (mergeModel ctxDefault [] ["a"] (.error (.runtime "boom")) 0 1).exc
        = some (.ledger .indexError)
    ∧ (mergeModel ctxDefault [prevRec] ["a"] (.error .interrupt) 0 1).exc
        = some .interrupt
    ∧ (mergeModel ctxDefault [prevRec] ["a"] (.error .interrupt) 0 1).hist.getLast?.map
        (fun r => (r.status, r.err)) = some ("failed", some "KeyboardInterrupt()") := by
  exact ⟨rfl, rfl, rfl, rfl⟩

end Builder

namespace Builder

/-- Claim C2: merge_resume raises a distinct resumability failure for
each unmet precondition, checked on the most recent record b of the
history: empty history; falsy sources; falsy step; step not a member
of sources; falsy target_name; and a last status other than "failed".
Each failure is the returned error of the call, so it propagates to
the caller. -/
theorem merge_resume_distinct_failures (hist : List BuildRecord) (b : BuildRecord) :
    (hist = [] → merge_resume hist = .error .noBuildBound)
    ∧ (hist.getLast? = some b →
        ((falsyList b.sources = true → merge_resume hist = .error .noSources)
        ∧ (falsyList b.sources = false → falsyStr b.step = true →
            merge_resume hist = .error .noStep)
        ∧ (falsyList b.sources = false → falsyStr b.step = false →
            b.step.getD "" ∉ b.sources.getD [] →
            merge_resume hist = .error .stepNotInSources)
        ∧ (falsyList b.sources = false → falsyStr b.step = false →
            b.step.getD "" ∈ b.sources.getD [] → falsyStr b.targetName = true →
            merge_resume hist = .error .noTargetName)
        ∧ (falsyList b.sources = false → falsyStr b.step = false →
            b.step.getD "" ∈ b.sources.getD [] → falsyStr b.targetName = false →
            b.status ≠ "failed" →
            merge_resume hist = .error .nothingToResume))) := by
  constructor
  · intro h
    subst h
    rfl
  · intro hlast
    unfold merge_resume
    rw [hlast]
    refine ⟨?_, ?_, ?_, ?_, ?_⟩
    · intro h1
      simp [h1]
    · intro h1 h2
      simp [h1, h2]
    · intro h1 h2 h3
      simp [h1, h2, h3]
    · intro h1 h2 h3 h4
      simp [h1, h2, h3, h4]
    · intro h1 h2 h3 h4 h5
      simp [h1, h2, h3, h4, h5]

/-- A failed record with consistent resume fields. -/
def failedRec : BuildRecord :=
  { status := "failed", startedAt := 0, targetBackend := "mongo",
    targetName := some "tname", step := some "b",
    sources := some ["a", "b", "c"] }

/-- Witness for merge_resume_distinct_failures: each of the six
failure branches exercised on a concrete history. -/
theorem merge_resume_distinct_failures_witness :
    merge_resume [] = .error .noBuildBound
    ∧ merge_resume [{ failedRec with sources := none }] = .error .noSources
    ∧ merge_resume [{ failedRec with step := none }] = .error .noStep
    ∧ merge_resume [{ failedRec with step := some "z" }] = .error .stepNotInSources
    ∧ merge_resume [{ failedRec with targetName := none }] = .error .noTargetName
    ∧ merge_resume [{ failedRec with status := "success" }] = .error .nothingToResume := by
  refine ⟨(merge_resume_distinct_failures [] failedRec).1 rfl, ?_, ?_, ?_, ?_, ?_⟩
  · exact ((merge_resume_distinct_failures [{ failedRec with sources := none }]
      { failedRec with sources := none }).2 (by decide)).1 (by decide)
  · exact ((merge_resume_distinct_failures [{ failedRec with step := none }]
      { failedRec with step := none }).2 (by decide)).2.1 (by decide) (by decide)
  · exact ((merge_resume_distinct_failures [{ failedRec with step := some "z" }]
      { failedRec with step := some "z" }).2 (by decide)).2.2.1 (by decide) (by decide)
      (by decide)
  · exact ((merge_resume_distinct_failures [{ failedRec with targetName := none }]
      { failedRec with targetName := none }).2 (by decide)).2.2.2.1 (by decide) (by decide)
      (by decide) (by decide)
  · exact ((merge_resume_distinct_failures [{ failedRec with status := "success" }]
      { failedRec with status := "success" }).2 (by decide)).2.2.2.2 (by decide) (by decide)
      (by decide) (by decide) (by decide)

end Builder

namespace Builder

/-- Claim C7: when every resumability precondition holds on the last
record (a failed status, a nonempty sources list, a nonempty step that
is a member of sources, a nonempty target name), merge_resume succeeds
and both re-validates and merges exactly the suffix of the recorded
sources starting at the recorded step inclusive, together with the
recorded target name; that list is a suffix of sources whose head is
the failed step itself. -/
theorem merge_resume_success_suffix (hist : List BuildRecord) (b : BuildRecord)
    (srcs : List String) (st tn : String)
    (hlast : hist.getLast? = some b)
    (hsrc : b.sources = some srcs) (hne : srcs ≠ [])
    (hstep : b.step = some st) (hstne : st ≠ "")
    (hmem : st ∈ srcs)
    (htn : b.targetName = some tn) (htne : tn ≠ "")
    (hfailed : b.status = "failed") :
    merge_resume hist = .ok { validatedSources := srcs.drop (srcs.indexOf st),
                              mergeSourcesArg := srcs.drop (srcs.indexOf st),
                              mergeTargetArg := tn }
    ∧ (srcs.drop (srcs.indexOf st)).head? = some st
    ∧ (srcs.drop (srcs.indexOf st)).IsSuffix srcs := by
  refine ⟨?_, ?_, List.drop_suffix _ _⟩
  · unfold merge_resume
    rw [hlast]
    simp [hsrc, hstep, htn, falsyList, falsyStr, hne, hstne, htne, hmem, hfailed,
      String.isEmpty_iff, List.isEmpty_iff]
  · rw [List.head?_drop]
    exact List.getElem?_indexOf hmem

/-- Witness for merge_resume_success_suffix: resuming on failedRec
(sources [a, b, c], step b, target tname) merges the suffix [b, c]. -/
theorem merge_resume_success_suffix_witness :
    merge_resume [failedRec] = .ok { validatedSources := ["b", "c"],
                                     mergeSourcesArg := ["b", "c"],
                                     mergeTargetArg := "tname" } := by
  have h := (merge_resume_success_suffix [failedRec] failedRec ["a", "b", "c"] "b" "tname"
    rfl rfl (by decide) rfl (by decide) (by decide) rfl (by decide) rfl).1
  rw [h]
  rfl

end Builder

namespace Builder

/-- Helper: in a concatenation of a block satisfying P with a block
refuting P, any position holding a P element precedes any position
holding a non-P element. -/
theorem append_parts_ordered {α : Type} (P : α → Prop) (p q : List α)
    (hp : ∀ x ∈ p, P x) (hq : ∀ x ∈ q, ¬ P x) (i j : Nat)
    (hi : i < (p ++ q).length) (hj : j < (p ++ q).length)
    (hni : ¬ P ((p ++ q)[i])) (hrj : P ((p ++ q)[j])) :
    j < i := by
  have hile : p.length ≤ i := by
    by_contra h
    push_neg at h
    rw [List.getElem_append_left h] at hni
    exact hni (hp _ (List.getElem_mem h))
  have hjlt : j < p.length := by
    by_contra h
    push_neg at h
    rw [List.getElem_append_right h] at hrj
    exact absurd hrj (hq _ (List.getElem_mem _))
  omega

/-- Claim C3: merge_sources processes every requested source, and all
root sources (those declared under the configuration root-document
key) come before every non-root source in the processing order,
whatever order the sources were given in: if position i of the
processing order holds a non-root source and position j holds a root
source then j < i. -/
theorem merge_sources_roots_first (bc : List (String × List String))
    (k : Option String) (ns : List String) (i j : Nat)
    (hi : i < (merge_sources_order bc k ns).length)
    (hj : j < (merge_sources_order bc k ns).length)
    (hni : (merge_sources_order bc k ns)[i] ∉ get_root_document_sources bc k)
    (hrj : (merge_sources_order bc k ns)[j] ∈ get_root_document_sources bc k) :
    j < i ∧ (∀ s, s ∈ merge_sources_order bc k ns ↔ s ∈ ns) := by
  constructor
  · refine append_parts_ordered (fun s => s ∈ get_root_document_sources bc k)
      ((ns.filter (fun s => s ∈ get_root_document_sources bc k)).dedup)
      ((ns.filter (fun s => ¬ s ∈ get_root_document_sources bc k)).dedup)
      ?_ ?_ i j hi hj hni hrj
    · intro x hx
      simp only [List.mem_dedup, List.mem_filter, decide_eq_true_eq] at hx
      exact hx.2
    · intro x hx
      simp only [List.mem_dedup, List.mem_filter, decide_eq_true_eq] at hx
      exact hx.2
  · intro s
    unfold merge_sources_order orderedSourceNames
    simp only [List.mem_append, List.mem_dedup, List.mem_filter, decide_eq_true_eq]
    constructor
    · rintro (⟨h, _⟩ | ⟨h, _⟩) <;> exact h
    · intro h
      by_cases hr : s ∈ get_root_document_sources bc k
      · exact Or.inl ⟨h, hr⟩
      · exact Or.inr ⟨h, hr⟩

/-- Witness for merge_sources_roots_first: with configuration
root_srcs = [refseq] and requested sources [geneinfo, refseq], the
processing order is [refseq, geneinfo]: the root source refseq at
position 0 precedes the non-root geneinfo at position 1. -/
theorem merge_sources_roots_first_witness :
    (0 : Nat) < 1
    ∧ (∀ s, s ∈ merge_sources_order [("root_srcs", ["refseq"])] (some "root_srcs")
        ["geneinfo", "refseq"] ↔ s ∈ ["geneinfo", "refseq"]) := by
  exact merge_sources_roots_first [("root_srcs", ["refseq"])] (some "root_srcs")
    ["geneinfo", "refseq"] 1 0 (by decide) (by decide) (by decide) (by decide)

end Builder

namespace Builder

/-- Claim C8: every batch write merge_source issues for a source uses
upsert exactly when no root-document key is declared (doc_root_key is
None) or the source itself is one of the declared root sources;
otherwise the write is update-only. -/
theorem merge_source_upsert_iff (bc : List (String × List String))
    (k : Option String) (src : String)
    (mapper : List String → List String) (clean : String → String)
    (updateCount : List String → Nat) (batches : List (List String))
    (w : Write)
    (hw : w ∈ (merge_source bc k src mapper clean updateCount batches).2) :
    w.upsert = true ↔ (k = none ∨ src ∈ get_root_document_sources bc k) := by
  have hup : w.upsert = upsertMode bc k src := by
    unfold merge_source at hw
    simp only [List.mem_map] at hw
    obtain ⟨docs, _, hmk⟩ := hw
    rw [← hmk]
  rw [hup]
  unfold upsertMode
  constructor
  · intro h
    rcases Bool.or_eq_true_iff.mp h with h1 | h1
    · exact Or.inl (Option.isNone_iff_eq_none.mp h1)
    · exact Or.inr (by simpa using h1)
  · intro h
    rcases h with h1 | h1
    · subst h1
      rfl
    · exact Bool.or_eq_true_iff.mpr (Or.inr (by simpa using h1))

/-- Witness for merge_source_upsert_iff: for the non-root source
geneinfo under configuration root_srcs = [refseq], the single batch
write is update-only. -/
theorem merge_source_upsert_iff_witness :
    ({ src := "geneinfo", docs := ["d1"], upsert := false } : Write).upsert = true
      ↔ ((some "root_srcs" : Option String) = none
          ∨ "geneinfo" ∈ get_root_document_sources [("root_srcs", ["refseq"])]
              (some "root_srcs")) := by
  exact merge_source_upsert_iff [("root_srcs", ["refseq"])] (some "root_srcs") "geneinfo"
    id id List.length [["d1"]] { src := "geneinfo", docs := ["d1"], upsert := false }
    (by decide)

end Builder

namespace DataTransform

/-- Helper: add never removes an edge. -/
theorem edges_subset_add (g : RecChain) (x y : PyVal) :
    g.edges ⊆ (add g x y).edges := by
  intro e he
  unfold add
  dsimp only
  split
  · exact he
  · exact List.mem_append_left _ he

/-- Helper: add makes its edge present. -/
theorem mem_add_edges (g : RecChain) (x y : PyVal) :
    (x, y) ∈ (add g x y).edges := by
  unfold add
  dsimp only
  split
  · assumption
  · exact List.mem_append_right _ (List.mem_singleton_self _)

/-- Helper: a fold of add over a pair list preserves existing edges. -/
theorem foldl_add_superset (l : List (PyVal × PyVal)) (g : RecChain) :
    g.edges ⊆ (l.foldl (fun h p => add h p.1 p.2) g).edges := by
  induction l generalizing g with
  | nil => exact fun e he => he
  | cons q t ih =>
      intro e he
      exact ih (add g q.1 q.2) (edges_subset_add g q.1 q.2 he)

/-- Helper: a fold of add over a pair list inserts every listed pair. -/
theorem foldl_add_mem (l : List (PyVal × PyVal)) (g : RecChain)
    (p : PyVal × PyVal) (hp : p ∈ l) :
    p ∈ (l.foldl (fun h q => add h q.1 q.2) g).edges := by
  induction l generalizing g with
  | nil => cases hp
  | cons q t ih =>
      rcases List.mem_cons.mp hp with h | h
      · subst h
        exact foldl_add_superset t (add g p.1 p.2) (mem_add_edges g p.1 p.2)
      · exact ih (add g q.1 q.2) h

/-- The chain 1 -> 2 -> 3, built as RecChain.add(1,2); add(2,3). -/
def chainB : RecChain :=
  add (add emptyChain (.int 1) (.int 2)) (.int 2) (.int 3)

/-- Claim C9, counterexample: combining the empty chain A with the
chain B holding edges (1,2) and (2,3) does NOT copy every edge of B
into A: iteration of B yields only the pair (1,3) (its root paired
with its leaf), so the edge (2,3) of B is absent from A += B and the
result is not an edge-superset of B. -/
theorem iadd_not_edge_superset :
    (PyVal.int 2, PyVal.int 3) ∈ chainB.edges
    ∧ (PyVal.int 2, PyVal.int 3) ∉ (iadd emptyChain chainB).edges
    ∧ (iadd emptyChain chainB).edges = [(PyVal.int 1, PyVal.int 3)] := by
  refine ⟨by decide, by decide, by decide⟩

/-- Claim C9, amended: A.combine(B) (A += B) iterates B and adds one
edge per yielded (root, leaf) pair of B — every root of B paired with
every leaf find_leaf reaches from it — rather than copying every edge
of B; the existing edges of A are preserved, so the result is a
superset of the union of the edges of A and the iterated pairs of B;
and combining fails with a TypeError when the right operand is not a
RecChain. -/
theorem iadd_adds_iterated_pairs (a b : RecChain) (p e : PyVal × PyVal)
    (hp : p ∈ iterPairs b) (he : e ∈ a.edges) :
    p ∈ (iadd a b).edges
    ∧ e ∈ (iadd a b).edges
    ∧ iaddObj a .notChain = .error .typeError := by
  refine ⟨foldl_add_mem _ a p hp, foldl_add_superset _ a he, rfl⟩

/-- Witness for iadd_adds_iterated_pairs: the pair (1,3) iterated from
chainB lands in the edges of emptyChain += chainB, as does a
pre-existing edge (7,8) of the left operand. -/
theorem iadd_adds_iterated_pairs_witness :
    (PyVal.int 1, PyVal.int 3)
        ∈ (iadd { nodes := [.int 7, .int 8], edges := [(.int 7, .int 8)] } chainB).edges
    ∧ (PyVal.int 7, PyVal.int 8)
        ∈ (iadd { nodes := [.int 7, .int 8], edges := [(.int 7, .int 8)] } chainB).edges
    ∧ iaddObj { nodes := [.int 7, .int 8], edges := [(.int 7, .int 8)] } .notChain
        = .error .typeError := by
  have h := iadd_adds_iterated_pairs
    { nodes := [.int 7, .int 8], edges := [(.int 7, .int 8)] } chainB
    (PyVal.int 1, PyVal.int 3) (PyVal.int 7, PyVal.int 8) (by decide) (by decide)
  exact h

end DataTransform

namespace DataTransform

/-- The lineage graph of the repository test: roots 1, 2, 3 seeded via
add_root, then edges 1 -> 2, 2 -> 3, 3 -> 4, 3 -> 5. -/
def lineageG : RecChain :=
  let g0 := add_root (add_root (add_root emptyChain (.int 1)) (.int 2)) (.int 3)
  add (add (add (add g0 (.int 1) (.int 2)) (.int 2) (.int 3)) (.int 3) (.int 4))
    (.int 3) (.int 5)

/-- Claim C10: on the acyclic lineage graph with edges 1 -> 2, 2 -> 3,
3 -> 4, 3 -> 5, the identifier 4 IS among find_leaf(1), so the claim
expects lookup(1, 4) = true; but lookup passes from_id straight to
find_left, whose loop iterates over from_id itself, so the scalar
identifier 1 raises TypeError instead of being treated as one node.
The call only returns a boolean when from_id is already a collection
of identifiers. -/
theorem lookup_scalar_from_id_raises :
    lookup lineageG (.int 1) (.int 4) = .error .typeError
    ∧ (PyVal.int 4) ∈ find_leaf lineageG (.int 1)
    ∧ lookup lineageG (.list [1]) (.int 4) = .ok true := by
  refine ⟨rfl, by decide, rfl⟩

end DataTransform
